import Mathlib

/-!
Shallow embedding of `svtools/vcf/variant.py` (class `Variant`).

Python strings are modelled as Lean `String` (a wrapper around `List Char`);
Python `str.split(sep)` for the single-character separators used by the source
(`:`, `;`, `=`, tab) is `pySplit`, Python `sep.join` is `pyJoin`, and Python
dictionaries keyed by strings are association lists with in-place update
(`pyDictInsert`) and first-match lookup (`pyDictGet`), which is faithful
because the source only observes membership, lookup and emptiness of these
dictionaries.  Paths on which the Python code raises (`IndexError`,
`ValueError` from `int(...)`, `KeyError`) or prints an error and calls
`exit(1)` are modelled as `Except VarErr` results; since every such path
terminates the process, the pre-exit mutations are unobservable and are not
carried in the error value.
-/

set_option autoImplicit false

/-- Python `s.split(sep)` for a one-character separator, at the level of the
underlying character list: empty parts are kept and splitting the empty list
yields `[[]]`, exactly as in Python. -/
def splitChars (sep : Char) : List Char → List (List Char)
  | [] => [[]]
  | c :: cs =>
    if c = sep then [] :: splitChars sep cs
    else
      match splitChars sep cs with
      | [] => [[c]]
      | h :: t => (c :: h) :: t

/-- Python `s.split(sep)` for a one-character separator. -/
def pySplit (sep : Char) (s : String) : List String :=
  (splitChars sep s.data).map String.mk

/-- Python `sep.join(xs)`. -/
def pyJoin (sep : String) : List String → String
  | [] => ""
  | [x] => x
  | x :: y :: xs => x ++ sep ++ pyJoin sep (y :: xs)

/-- ASCII decimal digit test. -/
def charDigit (c : Char) : Bool := decide ('0' ≤ c) && decide (c ≤ '9')

/-- Value of a list of ASCII digits, most significant first. -/
def digitsVal (cs : List Char) : Nat :=
  cs.foldl (fun n c => n * 10 + (c.toNat - '0'.toNat)) 0

/-- Python `int(s)`: surrounding whitespace is stripped, then an optional
sign followed by one or more (ASCII, in this model) decimal digits.
`none` models the `ValueError` that `int` raises otherwise. -/
def pyInt (s : String) : Option Int :=
  let t := ((s.data.dropWhile Char.isWhitespace).reverse.dropWhile
    Char.isWhitespace).reverse
  match t with
  | [] => none
  | c :: rest =>
    if c = '+' then
      if rest ≠ [] ∧ rest.all charDigit = true then
        some ((digitsVal rest : Nat) : Int)
      else none
    else if c = '-' then
      if rest ≠ [] ∧ rest.all charDigit = true then
        some (-((digitsVal rest : Nat) : Int))
      else none
    else
      if (c :: rest).all charDigit = true then
        some ((digitsVal (c :: rest) : Nat) : Int)
      else none

/-- A value stored in the `info` dictionary: either a substring of the INFO
column (or a value passed to `set_info`), or a Python boolean — construction
stores `True` for a flag-style INFO part with no `=`. -/
inductive Value where
  | str (s : String)
  | bool (b : Bool)
deriving DecidableEq

/-- Python truthiness of an `info` value: a string is truthy iff nonempty. -/
def Value.truthy : Value → Bool
  | .str s => s.data ≠ []
  | .bool b => b

/-- Python `str(...)` of an `info` value, as used by `'%s=%s' % (id, value)`. -/
def Value.toStr : Value → String
  | .str s => s
  | .bool b => if b then "True" else "False"

/-- Python dictionary update `d[k] = v`: replace the value at the first
occurrence of `k`, else append the new binding. -/
def pyDictInsert {α : Type} : List (String × α) → String → α → List (String × α)
  | [], k, v => [(k, v)]
  | (k', v') :: rest, k, v =>
    if k' = k then (k, v) :: rest else (k', v') :: pyDictInsert rest k v

/-- Python dictionary lookup `d[k]` / `k in d`, as an `Option`. -/
def pyDictGet {α : Type} : List (String × α) → String → Option α
  | [], _ => none
  | (k', v') :: rest, k => if k' = k then some v' else pyDictGet rest k

/-- One entry of the header's declared INFO list: an id and a declared type
(the type `"Flag"` is the one the serializer distinguishes). -/
structure InfoField where
  id : String
  type : String
deriving DecidableEq

/-- One entry of the header's declared FORMAT list. -/
structure FormatField where
  id : String
deriving DecidableEq

/-- The header context handed to `Variant.__init__` (`vcf` argument): ordered
sample names, ordered INFO descriptors and ordered FORMAT descriptors. -/
structure Vcf where
  sample_list : List String
  info_list : List InfoField
  format_list : List FormatField
deriving DecidableEq

/-- Modelled from the spec: class `Genotype` (file `svtools/vcf/genotype.py`,
not among the sources) is "constructed from (owning Record reference,
call-field string)" and "stores the call plus sub-field values".  The back
reference to the owning record is replaced by passing the record's data to
the methods that need it. -/
structure Genotype where
  call : String
  formats : List (String × String)
deriving DecidableEq

/-- Modelled from the spec: `set_formats(ordered tag list, ordered raw
sub-field values)` "populates remaining sub-fields", i.e. pairs the non-call
tags with the non-call values (the first tag/value is the call). -/
def Genotype.set_formats (g : Genotype) (tags vals : List String) : Genotype :=
  { g with formats := (tags.drop 1).zip (vals.drop 1) }

/-- Modelled from the spec: `get_gt_string()` "produces this sample's column
string for output": the sub-field values for the record's active format
order joined with `:`, the call standing for the `GT` tag and `.` for an
absent sub-field. -/
def Genotype.gt_string (g : Genotype) (active_format_list : List String) : String :=
  pyJoin ":" (active_format_list.map fun tag =>
    if tag = "GT" then g.call else (pyDictGet g.formats tag).getD ".")

/-- The error outcomes of the embedded methods. `malformedRecord`,
`undeclaredInfoField` and `unknownSample` stand for the explicit
"write to stderr then `exit(1)`" paths of `__init__`, `set_info` and
`genotype`; `indexError`, `valueError` and `unknownInfoField` stand for the
uncaught Python `IndexError`, `ValueError` (from `int`) and `KeyError`
(from `get_info`) exceptions. -/
inductive VarErr where
  | malformedRecord
  | indexError
  | valueError
  | undeclaredInfoField
  | unknownInfoField
  | unknownSample
deriving DecidableEq

/-- The loop body of `update_active_format_list`: walk the header's declared
FORMAT list and keep, in declared order, the ids present in the active set. -/
def activeList : List FormatField → List String → List String
  | [], _ => []
  | f :: rest, active =>
    if active.contains f.id then f.id :: activeList rest active
    else activeList rest active

/-- One iteration of the INFO-column parse in `Variant.__init__`: the part
is split on `=`; a part with no `=` gets the value `True` appended
(`i.append(True)`), otherwise the key is the text before the first `=` and
the value the text between the first and second `=` (further `=`-separated
pieces are dropped, as `self.info[i[0]] = i[1]` only reads the first
two). -/
def infoStep (d : List (String × Value)) (part : String) : List (String × Value) :=
  match pySplit '=' part with
  | [] => d
  | [key] => pyDictInsert d key (.bool true)
  | key :: val :: _ => pyDictInsert d key (.str val)

/-- The INFO-column parse in `Variant.__init__`: split on `;`, then handle
each part in order with `infoStep`. -/
def parseInfo (s : String) : List (String × Value) :=
  (pySplit ';' s).foldl infoStep []

/-- The state of one `Variant` object (class `Variant`). -/
structure Variant where
  chrom : String
  pos : Int
  var_id : String
  ref : String
  alt : String
  qual : String
  filter : String
  sample_list : List String
  info_list : List InfoField
  info : List (String × Value)
  format_list : List FormatField
  format_set : List String
  active_formats : List String
  active_format_list : List String
  gts : Option (List (String × Genotype))
  format_string : Option String
  gts_string : String
deriving DecidableEq

/-- `Variant.update_active_format_list`. -/
def Variant.update_active_format_list (v : Variant) : Variant :=
  { v with active_format_list := activeList v.format_list v.active_formats }

/-- `Variant.__init__(var_list, vcf)`.  The column reads happen in source
order: `var_list[0]`, `int(var_list[1])`, `var_list[2]` … `var_list[6]`, then
the explicit `len(var_list) < 8` check (stderr message plus `exit(1)`,
modelled `malformedRecord`), then `var_list[8]`; an out-of-range read is the
uncaught `IndexError`, a non-numeric position the uncaught `ValueError`.
`active_formats` is the set of parts of the FORMAT column (a Python set; the
split list stands for it, every use being membership or emptiness),
`active_format_list` is derived by `update_active_format_list`, the
genotype columns are cached unparsed in `gts_string` and `gts` stays
`None`. -/
def Variant.init (var_list : List String) (vcf : Vcf) : Except VarErr Variant :=
  match var_list.get? 0 with
  | none => .error .indexError
  | some chrom =>
    match var_list.get? 1 with
    | none => .error .indexError
    | some posStr =>
      match pyInt posStr with
      | none => .error .valueError
      | some pos =>
        match var_list.get? 2 with
        | none => .error .indexError
        | some var_id =>
          match var_list.get? 3 with
          | none => .error .indexError
          | some ref =>
            match var_list.get? 4 with
            | none => .error .indexError
            | some alt =>
              match var_list.get? 5 with
              | none => .error .indexError
              | some qual =>
                match var_list.get? 6 with
                | none => .error .indexError
                | some filt =>
                  if var_list.length < 8 then .error .malformedRecord
                  else
                    match var_list.get? 8 with
                    | none => .error .indexError
                    | some fmt =>
                      let v : Variant :=
                        { chrom := chrom
                          pos := pos
                          var_id := var_id
                          ref := ref
                          alt := alt
                          qual := qual
                          filter := filt
                          sample_list := vcf.sample_list
                          info_list := vcf.info_list
                          info := parseInfo (var_list.getD 7 "")
                          format_list := vcf.format_list
                          format_set := (vcf.format_list.map (·.id)).eraseDups
                          active_formats := pySplit ':' fmt
                          active_format_list := []
                          gts := none
                          format_string := some fmt
                          gts_string := pyJoin "\t" (var_list.drop 9) }
                      .ok v.update_active_format_list

/-- `Variant.set_info(field, value)`: the id must be declared in the
header's INFO list, else stderr message plus `exit(1)`. -/
def Variant.set_info (v : Variant) (field : String) (value : Value) :
    Except VarErr Variant :=
  if (v.info_list.map (·.id)).contains field then
    .ok { v with info := pyDictInsert v.info field value }
  else .error .undeclaredInfoField

/-- `Variant.get_info(field)`: dictionary lookup, `KeyError` if absent. -/
def Variant.get_info (v : Variant) (field : String) : Except VarErr Value :=
  match pyDictGet v.info field with
  | some x => .ok x
  | none => .error .unknownInfoField

/-- The loop of `get_info_string`: walk the header's declared INFO list; a
declared field present in `info` is emitted, a `"Flag"`-typed one as the
bare id and only when its value is truthy, any other as `id=value`. -/
def infoEntries : List InfoField → List (String × Value) → List String
  | [], _ => []
  | f :: rest, info =>
    match pyDictGet info f.id with
    | none => infoEntries rest info
    | some val =>
      if f.type = "Flag" then
        if val.truthy then f.id :: infoEntries rest info
        else infoEntries rest info
      else (f.id ++ "=" ++ val.toStr) :: infoEntries rest info

/-- `Variant.get_info_string()`. -/
def Variant.get_info_string (v : Variant) : String :=
  pyJoin ";" (infoEntries v.info_list v.info)

/-- `Variant.get_format_string()`: the cached FORMAT column verbatim while
it is still present; once it has been dropped (genotype parse), the
header's declared FORMAT order filtered to the active set, joined with
`:`. -/
def Variant.get_format_string (v : Variant) : String :=
  match v.format_string with
  | some s => s
  | none => pyJoin ":" (activeList v.format_list v.active_formats)

/-- The loop of `Variant._parse_genotypes(format_field_tags,
genotype_array)`: `for index, sample_string in enumerate(genotype_array)`.
Each iteration reads `self.sample_list[index]` — outside the `try`, so a
genotype array longer than the sample list is an uncaught `IndexError` —
then builds `Genotype(self, sample_field[0])` and calls `set_formats`.
In this model the `try` body cannot raise `IndexError` (`sample_field[0]`
always exists since a split is nonempty, and the spec-modelled
`set_formats` zips), so the `except IndexError` branch that would install
the sentinel `Genotype(self, './.')` is unreachable, as it is in the
source. -/
def parseGenotypesGo (sample_list tags : List String) :
    List String → Nat → List (String × Genotype) →
      Except VarErr (List (String × Genotype))
  | [], _, gts => .ok gts
  | s :: rest, idx, gts =>
    match sample_list.get? idx with
    | none => .error .indexError
    | some name =>
      let fields := pySplit ':' s
      let g := Genotype.set_formats ⟨fields.headD "", []⟩ tags fields
      parseGenotypesGo sample_list tags rest (idx + 1) (pyDictInsert gts name g)

/-- `Variant._parse_genotypes(format_field_tags, genotype_array)`. -/
def Variant.parse_genotypes (v : Variant) (tags genotype_array : List String) :
    Except VarErr (List (String × Genotype)) :=
  parseGenotypesGo v.sample_list tags genotype_array 0 []

/-- `Variant.genotype(sample_name)`.  On first access (`self.gts is None`)
the cached FORMAT and genotype-columns strings are split and parsed, `gts`
is installed and `format_string` is set to `None`; `gts_string` is kept.
A missing sample name is the "invalid sample name" stderr message plus
`sys.exit(1)`. -/
def Variant.genotype (v : Variant) (sample_name : String) :
    Except VarErr (Variant × Genotype) :=
  match v.gts with
  | some gts =>
    match pyDictGet gts sample_name with
    | some g => .ok (v, g)
    | none => .error .unknownSample
  | none =>
    match v.parse_genotypes (pySplit ':' (v.format_string.getD ""))
        (pySplit '\t' v.gts_string) with
    | .error e => .error e
    | .ok gts =>
      let v' : Variant := { v with gts := some gts, format_string := none }
      match pyDictGet gts sample_name with
      | some g => .ok (v', g)
      | none => .error .unknownSample

/-- `Variant.get_gt_string(use_cached_gt_string)`.  `if self.gts:` is Python
truthiness: with `gts` absent or an empty dictionary the cached
`gts_string` is returned; with a nonempty parsed dictionary, the cached
string is still returned when `use_cached_gt_string` is set, otherwise the
per-sample columns are resynthesized in header sample order and joined with
tabs. -/
def Variant.get_gt_string (v : Variant) (use_cached_gt_string : Bool) :
    Except VarErr String :=
  match v.gts with
  | some gts =>
    if gts = [] then .ok v.gts_string
    else if use_cached_gt_string then .ok v.gts_string
    else
      match v.sample_list.mapM (fun s =>
        match pyDictGet gts s with
        | some g => Except.ok (g.gt_string v.active_format_list)
        | none => Except.error VarErr.unknownSample) with
      | .error e => .error e
      | .ok cols => .ok (pyJoin "\t" cols)
  | none => .ok v.gts_string

/-- `Variant.get_var_string(use_cached_gt_string)`: the seven fixed columns
(`pos` through `str`) and the INFO string; the FORMAT column and genotype
columns are appended unless both the active set is empty and the cached
FORMAT string is gone.  (The source's `gts_string is None` guard is dead:
`get_gt_string` always returns a string.) -/
def Variant.get_var_string (v : Variant) (use_cached_gt_string : Bool) :
    Except VarErr String :=
  let fields : List String :=
    [v.chrom, toString v.pos, v.var_id, v.ref, v.alt, v.qual, v.filter,
      v.get_info_string]
  if v.active_formats = [] ∧ v.format_string = none then
    .ok (pyJoin "\t" fields)
  else
    match v.get_gt_string use_cached_gt_string with
    | .error e => .error e
    | .ok g => .ok (pyJoin "\t" (fields ++ [v.get_format_string, g]))

/-! ### Generic helpers -/

instance {ε α : Type} [DecidableEq ε] [DecidableEq α] : DecidableEq (Except ε α) := by
  intro a b
  cases a <;> cases b
  case error.error e f =>
    exact if h : e = f then .isTrue (by rw [h]) else .isFalse (fun hc => h (by cases hc; rfl))
  case error.ok _ _ => exact .isFalse (fun hc => by cases hc)
  case ok.error _ _ => exact .isFalse (fun hc => by cases hc)
  case ok.ok x y =>
    exact if h : x = y then .isTrue (by rw [h]) else .isFalse (fun hc => h (by cases hc; rfl))

/-- Whether an `Except` result is a success. -/
def isOkE {ε α : Type} : Except ε α → Bool
  | .ok _ => true
  | .error _ => false

theorem isOkE_iff {ε α : Type} {e : Except ε α} : isOkE e = true ↔ ∃ a, e = .ok a := by
  cases e <;> simp [isOkE]

/-! ### Lemmas about `pyJoin` and `pySplit` -/

theorem pyJoin_cons (sep x : String) (l : List String) (h : l ≠ []) :
    pyJoin sep (x :: l) = x ++ sep ++ pyJoin sep l := by
  cases l with
  | nil => exact absurd rfl h
  | cons y ys => rfl

theorem pyJoin_append_join (sep : String) (xs ys : List String) (h : ys ≠ []) :
    pyJoin sep (xs ++ [pyJoin sep ys]) = pyJoin sep (xs ++ ys) := by
  induction xs with
  | nil =>
    cases ys with
    | nil => exact absurd rfl h
    | cons y ys' => rfl
  | cons x xs ih =>
    rw [List.cons_append, List.cons_append,
      pyJoin_cons sep x (xs ++ [pyJoin sep ys]) (by simp),
      pyJoin_cons sep x (xs ++ ys)
        (fun hc => h (List.append_eq_nil.mp hc).2), ih]

theorem splitChars_ne_nil (sep : Char) (l : List Char) : splitChars sep l ≠ [] := by
  induction l with
  | nil => simp [splitChars]
  | cons c cs ih =>
    simp only [splitChars]
    split
    · simp
    · split <;> simp

theorem splitChars_no_sep (sep : Char) (l : List Char) (h : sep ∉ l) :
    splitChars sep l = [l] := by
  induction l with
  | nil => rfl
  | cons c cs ih =>
    have hc : ¬ c = sep := fun hc => h (by simp [hc])
    have hcs : sep ∉ cs := fun hm => h (by simp [hm])
    simp only [splitChars, if_neg hc, ih hcs]

theorem splitChars_append (sep : Char) (a rest : List Char) (h : sep ∉ a) :
    splitChars sep (a ++ sep :: rest) = a :: splitChars sep rest := by
  induction a with
  | nil => simp [splitChars]
  | cons c cs ih =>
    have hc : ¬ c = sep := fun hc => h (by simp [hc])
    have hcs : sep ∉ cs := fun hm => h (by simp [hm])
    simp only [List.cons_append, splitChars, if_neg hc, List.append_eq, ih hcs]

/-- `joinChars` is `pyJoin` at the level of character lists. -/
def joinChars (sep : List Char) : List (List Char) → List Char
  | [] => []
  | [x] => x
  | x :: y :: xs => x ++ sep ++ joinChars sep (y :: xs)

theorem pyJoin_map_mk (sep : String) : (parts : List (List Char)) →
    pyJoin sep (parts.map String.mk) = String.mk (joinChars sep.data parts)
  | [] => rfl
  | [_] => rfl
  | x :: y :: xs => by
    show String.mk x ++ sep ++ pyJoin sep ((y :: xs).map String.mk)
        = String.mk (x ++ sep.data ++ joinChars sep.data (y :: xs))
    rw [pyJoin_map_mk sep (y :: xs)]
    rfl

theorem joinChars_splitChars (sep : Char) : (l : List Char) →
    joinChars [sep] (splitChars sep l) = l
  | [] => rfl
  | c :: cs => by
    have ih := joinChars_splitChars sep cs
    by_cases hc : c = sep
    · subst hc
      simp only [splitChars, if_pos rfl]
      cases hsp : splitChars c cs with
      | nil => exact absurd hsp (splitChars_ne_nil c cs)
      | cons h t =>
        rw [hsp] at ih
        show [] ++ [c] ++ joinChars [c] (h :: t) = c :: cs
        rw [ih]
        rfl
    · simp only [splitChars, if_neg hc]
      cases hsp : splitChars sep cs with
      | nil => exact absurd hsp (splitChars_ne_nil sep cs)
      | cons h t =>
        rw [hsp] at ih
        cases t with
        | nil =>
          show c :: h = c :: cs
          rw [show joinChars [sep] [h] = h from rfl] at ih
          rw [ih]
        | cons t0 ts =>
          show (c :: h) ++ [sep] ++ joinChars [sep] (t0 :: ts) = c :: cs
          rw [show joinChars [sep] (h :: t0 :: ts)
              = h ++ [sep] ++ joinChars [sep] (t0 :: ts) from rfl] at ih
          rw [← ih]
          simp

/-- Joining a Python split back with the same one-character separator is the
identity. -/
theorem pyJoin_pySplit (c : Char) (s : String) :
    pyJoin (String.mk [c]) (pySplit c s) = s := by
  rw [pySplit, pyJoin_map_mk]
  show String.mk (joinChars [c] (splitChars c s.data)) = s
  rw [joinChars_splitChars]

theorem pySplit_ne_nil (c : Char) (s : String) : pySplit c s ≠ [] := by
  intro h
  exact splitChars_ne_nil c s.data (by simpa [pySplit] using h)

/-! ### Lemmas about the Python dictionary model -/

theorem pyDictGet_insert_self {α : Type} (d : List (String × α)) (k : String) (v : α) :
    pyDictGet (pyDictInsert d k v) k = some v := by
  induction d with
  | nil => simp [pyDictInsert, pyDictGet]
  | cons p rest ih =>
    obtain ⟨k', v'⟩ := p
    by_cases h : k' = k
    · simp [pyDictInsert, pyDictGet, h]
    · simp [pyDictInsert, pyDictGet, h, ih]

theorem pyDictGet_insert_ne {α : Type} (d : List (String × α)) (k k' : String) (v : α)
    (h : k' ≠ k) : pyDictGet (pyDictInsert d k v) k' = pyDictGet d k' := by
  induction d with
  | nil => simp [pyDictInsert, pyDictGet, if_neg (Ne.symm h)]
  | cons p rest ih =>
    obtain ⟨a, b⟩ := p
    by_cases ha : a = k
    · subst ha
      simp [pyDictInsert, pyDictGet, if_neg (Ne.symm h)]
    · simp [pyDictInsert, pyDictGet, ha, ih]

theorem pyDictGet_ne_nil {α : Type} {d : List (String × α)} {k : String} {v : α}
    (h : pyDictGet d k = some v) : d ≠ [] := by
  intro hd
  subst hd
  simp [pyDictGet] at h

/-! ### Lemmas about `activeList` and `infoEntries` -/

theorem activeList_eq_filter (fl : List FormatField) (act : List String) :
    activeList fl act = (fl.map (·.id)).filter (fun i => act.contains i) := by
  induction fl with
  | nil => rfl
  | cons f rest ih =>
    simp only [activeList, List.map_cons, List.filter_cons]
    cases h : act.contains f.id <;> simp [h, ih]

theorem infoEntries_eq (il : List InfoField) (info : List (String × Value)) :
    infoEntries il info =
      (il.filter fun f =>
        match pyDictGet info f.id with
        | none => false
        | some val => if f.type = "Flag" then val.truthy else true).map
      (fun f => if f.type = "Flag" then f.id
        else f.id ++ "=" ++ ((pyDictGet info f.id).getD (.bool true)).toStr) := by
  induction il with
  | nil => rfl
  | cons f rest ih =>
    simp only [infoEntries, List.filter_cons]
    cases h : pyDictGet info f.id with
    | none => simp [h, ih]
    | some val =>
      by_cases hf : f.type = "Flag"
      · cases hv : val.truthy <;> simp [h, hf, hv, ih]
      · simp [h, hf, ih]

theorem infoEntries_congr (il : List InfoField) (info info' : List (String × Value))
    (h : ∀ k, pyDictGet info' k = pyDictGet info k) :
    infoEntries il info' = infoEntries il info := by
  induction il with
  | nil => rfl
  | cons f rest ih => simp only [infoEntries, h, ih]

/-! ### Inversion of `Variant.init` -/

theorem init_cons (l0 l1 l2 l3 l4 l5 l6 l7 l8 : String) (rest : List String) (vcf : Vcf) :
    Variant.init (l0 :: l1 :: l2 :: l3 :: l4 :: l5 :: l6 :: l7 :: l8 :: rest) vcf
      = match pyInt l1 with
        | none => .error .valueError
        | some pos => .ok
            { chrom := l0, pos := pos, var_id := l2, ref := l3, alt := l4, qual := l5,
              filter := l6, sample_list := vcf.sample_list, info_list := vcf.info_list,
              info := parseInfo l7, format_list := vcf.format_list,
              format_set := (vcf.format_list.map (·.id)).eraseDups,
              active_formats := pySplit ':' l8,
              active_format_list := activeList vcf.format_list (pySplit ':' l8),
              gts := none, format_string := some l8,
              gts_string := pyJoin "\t" rest } := by
  have hlen : ¬ ((l0 :: l1 :: l2 :: l3 :: l4 :: l5 :: l6 :: l7 :: l8 :: rest).length < 8) := by
    simp [List.length_cons]
  cases h : pyInt l1 with
  | none => simp [Variant.init, h]
  | some pos => simp [Variant.init, h, hlen, Variant.update_active_format_list]

theorem init_ok_length {l : List String} {vcf : Vcf} {v : Variant}
    (h : Variant.init l vcf = .ok v) : 9 ≤ l.length := by
  unfold Variant.init at h
  iterate 12 (all_goals try split at h)
  all_goals cases h
  obtain ⟨fmt8, heq⟩ : ∃ x, l.get? 8 = some x := ⟨_, by assumption⟩
  obtain ⟨hlt, -⟩ := List.get?_eq_some.mp heq
  omega

theorem exists_nine (l : List String) (h : 9 ≤ l.length) :
    ∃ l0 l1 l2 l3 l4 l5 l6 l7 l8 rest,
      l = l0 :: l1 :: l2 :: l3 :: l4 :: l5 :: l6 :: l7 :: l8 :: rest := by
  rcases l with _ | ⟨a0, _ | ⟨a1, _ | ⟨a2, _ | ⟨a3, _ | ⟨a4, _ | ⟨a5, _ | ⟨a6, _ | ⟨a7, _ | ⟨a8, r⟩⟩⟩⟩⟩⟩⟩⟩⟩
  all_goals simp at h
  exact ⟨a0, a1, a2, a3, a4, a5, a6, a7, a8, r, rfl⟩

theorem init_ok_inv {l : List String} {vcf : Vcf} {v : Variant}
    (h : Variant.init l vcf = .ok v) :
    ∃ l0 l1 l2 l3 l4 l5 l6 l7 l8 rest n,
      l = l0 :: l1 :: l2 :: l3 :: l4 :: l5 :: l6 :: l7 :: l8 :: rest
      ∧ pyInt l1 = some n
      ∧ v = { chrom := l0, pos := n, var_id := l2, ref := l3, alt := l4, qual := l5,
              filter := l6, sample_list := vcf.sample_list, info_list := vcf.info_list,
              info := parseInfo l7, format_list := vcf.format_list,
              format_set := (vcf.format_list.map (·.id)).eraseDups,
              active_formats := pySplit ':' l8,
              active_format_list := activeList vcf.format_list (pySplit ':' l8),
              gts := none, format_string := some l8,
              gts_string := pyJoin "\t" rest } := by
  obtain ⟨l0, l1, l2, l3, l4, l5, l6, l7, l8, rest, rfl⟩ := exists_nine l (init_ok_length h)
  rw [init_cons] at h
  cases hp : pyInt l1 with
  | none => rw [hp] at h; cases h
  | some n =>
    rw [hp] at h
    cases h
    exact ⟨l0, l1, l2, l3, l4, l5, l6, l7, l8, rest, n, rfl, hp, rfl⟩

/-! ### Test fixtures -/

/-- Test fixture: a header declaring two samples, INFO ids `AF` (non-Flag)
and `DB` (Flag), FORMAT ids `GT` and `DP`. -/
def vcfW : Vcf :=
  { sample_list := ["S1", "S2"]
    info_list := [⟨"AF", "Float"⟩, ⟨"DB", "Flag"⟩]
    format_list := [⟨"GT"⟩, ⟨"DP"⟩] }

/-- Test fixture: a canonical input line for `vcfW` (INFO already in header
order, position in canonical decimal form). -/
def colsW : List String :=
  ["chr1", "100", "rs1", "A", "G", "50", "PASS", "AF=0.5;DB", "GT:DP", "0/1:30", "0/0:25"]

/-- Fallback record used only to extract concrete fixtures out of `Except`
results. -/
def emptyVariant : Variant :=
  { chrom := "", pos := 0, var_id := "", ref := "", alt := "", qual := "", filter := ""
    sample_list := [], info_list := [], info := [], format_list := [], format_set := []
    active_formats := [], active_format_list := [], gts := none, format_string := none
    gts_string := "" }

/-- Test fixture: the record built from `colsW`. -/
def vW : Variant := (Variant.init colsW vcfW).toOption.getD emptyVariant

/-- Test fixture: the same line with the INFO column in non-header order. -/
def colsR : List String :=
  ["chr1", "100", "rs1", "A", "G", "50", "PASS", "DB;AF=0.5", "GT:DP", "0/1:30", "0/0:25"]

/-- Test fixture: the record built from `colsR`. -/
def vR : Variant := (Variant.init colsR vcfW).toOption.getD emptyVariant

/-- **C1** is false as stated: a freshly constructed record serialized with no
mutation and no genotype access need not reproduce the input line, because the
INFO column is re-serialized in header-declared order.  On `colsR` (INFO
column `DB;AF=0.5`, header order `AF`, `DB`) the serializer emits
`AF=0.5;DB`, so the output differs from the input line. -/
theorem C1_counterexample :
    Variant.init colsR vcfW = .ok vR
    ∧ vR.get_var_string false
        = .ok "chr1\t100\trs1\tA\tG\t50\tPASS\tAF=0.5;DB\tGT:DP\t0/1:30\t0/0:25"
    ∧ pyJoin "\t" colsR
        = "chr1\t100\trs1\tA\tG\t50\tPASS\tDB;AF=0.5\tGT:DP\t0/1:30\t0/0:25"
    ∧ vR.get_var_string false ≠ .ok (pyJoin "\t" colsR) :=
  ⟨by decide, by decide, by decide, by decide⟩

/-- **C1** (amended): for an input line with at least 10 columns whose
position column is the canonical decimal rendering of its parsed value and
whose INFO column already equals the record's header-ordered INFO
serialization, serializing the freshly constructed record with no mutation
and no genotype access reproduces the input line byte-for-byte (the FORMAT
and genotype columns are reproduced verbatim from the raw caches). -/
theorem C1_round_trip (var_list : List String) (vcf : Vcf) (v : Variant)
    (hinit : Variant.init var_list vcf = .ok v)
    (hlen : 10 ≤ var_list.length)
    (hpos : toString v.pos = var_list.getD 1 "")
    (hinfo : v.get_info_string = var_list.getD 7 "") :
    v.get_var_string false = .ok (pyJoin "\t" var_list) := by
  obtain ⟨l0, l1, l2, l3, l4, l5, l6, l7, l8, rest, n, rfl, hp, rfl⟩ := init_ok_inv hinit
  have hrest : rest ≠ [] := by
    intro hr
    subst hr
    simp at hlen
  rw [show (l0 :: l1 :: l2 :: l3 :: l4 :: l5 :: l6 :: l7 :: l8 :: rest).getD 1 "" = l1
    from rfl] at hpos
  rw [show (l0 :: l1 :: l2 :: l3 :: l4 :: l5 :: l6 :: l7 :: l8 :: rest).getD 7 "" = l7
    from rfl] at hinfo
  simp only [Variant.get_var_string, Variant.get_gt_string, Variant.get_format_string]
  rw [if_neg (by simp)]
  rw [hpos, hinfo]
  rw [show ([l0, l1, l2, l3, l4, l5, l6, l7] ++ [l8, pyJoin "\t" rest])
      = [l0, l1, l2, l3, l4, l5, l6, l7, l8] ++ [pyJoin "\t" rest] from rfl,
    pyJoin_append_join "\t" _ rest hrest]
  rfl

/-- **C1** (witness): the amended round trip at the canonical line `colsW`. -/
theorem C1_round_trip_witness : vW.get_var_string false = .ok (pyJoin "\t" colsW) :=
  C1_round_trip colsW vcfW vW (by decide) (by decide) (by decide) (by decide)

/-- **C2** is false as stated: the first genotype access discards only the
raw FORMAT string; the raw tab-joined genotype-columns cache `gts_string` is
kept, and `get_gt_string` with `use_cached_gt_string` set returns that stale
raw cache even after a genotype has been touched. -/
theorem C2_counterexample :
    ((Variant.init colsW vcfW).toOption.bind fun v => (v.genotype "S1").toOption).map
        (fun p => (p.1.gts.isSome, p.1.format_string,
          p.1.gts_string, (p.1.get_gt_string true).toOption))
      = some (true, none, pyJoin "\t" (colsW.drop 9), some (pyJoin "\t" (colsW.drop 9))) :=
  by decide

/-- **C2** (amended): the first access to any per-sample genotype transitions
the state from raw to parsed and discards the raw FORMAT string (so the
FORMAT column is afterwards resynthesized from the active formats); the raw
genotype-columns cache is retained, and requesting the cached genotype string
after the transition returns that retained raw cache unchanged. -/
theorem C2_raw_to_parsed (v v' : Variant) (s : String) (g : Genotype)
    (hraw : v.gts = none)
    (hgeno : v.genotype s = .ok (v', g)) :
    v'.format_string = none
    ∧ v'.gts.isSome = true
    ∧ v'.gts_string = v.gts_string
    ∧ v'.get_format_string = pyJoin ":" (activeList v'.format_list v'.active_formats)
    ∧ v'.get_gt_string true = .ok v.gts_string := by
  simp only [Variant.genotype, hraw] at hgeno
  cases hpg : v.parse_genotypes (pySplit ':' (v.format_string.getD ""))
      (pySplit '\t' v.gts_string) with
  | error e => simp only [hpg] at hgeno; cases hgeno
  | ok gts =>
    simp only [hpg] at hgeno
    cases hlook : pyDictGet gts s with
    | none => simp only [hlook] at hgeno; cases hgeno
    | some g0 =>
      simp only [hlook] at hgeno
      injection hgeno with hpair
      injection hpair with hv' hg
      subst hv'
      have hne : gts ≠ [] := pyDictGet_ne_nil hlook
      refine ⟨rfl, rfl, rfl, rfl, ?_⟩
      simp [Variant.get_gt_string, hne]

/-- **C2** (witness): the amended statement at `colsW`, touching sample
`S1`. -/
theorem C2_raw_to_parsed_witness :
    ((vW.genotype "S1").toOption.getD (emptyVariant, ⟨"", []⟩)).1.format_string = none
    ∧ ((vW.genotype "S1").toOption.getD (emptyVariant, ⟨"", []⟩)).1.gts.isSome = true
    ∧ ((vW.genotype "S1").toOption.getD (emptyVariant, ⟨"", []⟩)).1.gts_string = vW.gts_string
    ∧ ((vW.genotype "S1").toOption.getD (emptyVariant, ⟨"", []⟩)).1.get_format_string
        = pyJoin ":"
          (activeList ((vW.genotype "S1").toOption.getD (emptyVariant, ⟨"", []⟩)).1.format_list
            ((vW.genotype "S1").toOption.getD (emptyVariant, ⟨"", []⟩)).1.active_formats)
    ∧ ((vW.genotype "S1").toOption.getD (emptyVariant, ⟨"", []⟩)).1.get_gt_string true
        = .ok vW.gts_string :=
  C2_raw_to_parsed vW ((vW.genotype "S1").toOption.getD (emptyVariant, ⟨"", []⟩)).1 "S1"
    ((vW.genotype "S1").toOption.getD (emptyVariant, ⟨"", []⟩)).2
    (by decide) (by decide)

/-- Test fixture: a line for `vcfW` with a single genotype column although
the header declares two samples. -/
def colsShort : List String :=
  ["chr1", "100", "rs1", "A", "G", "50", "PASS", "AF=0.5", "GT", "0/1"]

/-- **C3**: with fewer genotype columns than declared samples, the parse
loop enumerates the genotype columns (not the samples), so a declared sample
with no column never enters the parsed mapping and `genotype` on it is the
"invalid sample name" `exit(1)` path — not the `./.` missing-call sentinel
the spec describes (the `except IndexError` branch meant to install it is
unreachable).  On `colsShort`, sample `S1` parses with call `0/1` while
`genotype("S2")` fails. -/
theorem C3_short_columns_fails :
    (Variant.init colsShort vcfW).toOption.map
        (fun v => ((v.genotype "S1").map (fun p => p.2.call),
          (v.genotype "S2").map Prod.snd))
      = some (.ok "0/1", .error .unknownSample) := by decide

/-- Test fixture: exactly 8 columns (fixed columns plus INFO, no FORMAT
column) with a numeric position. -/
def cols8 : List String := ["chr1", "100", "rs1", "A", "G", "50", "PASS", "AF=0.5"]

/-- **C5** is false as stated: an input with 8 columns and a numeric
position satisfies the claim's constraints but construction still fails —
the constructor unconditionally reads a 9th column. -/
theorem C5_counterexample :
    cols8.length = 8 ∧ pyInt (cols8.getD 1 "") = some 100
    ∧ Variant.init cols8 vcfW = .error .indexError :=
  ⟨by decide, by decide, by decide⟩

/-- **C5** (amended): construction fails for every input with fewer than
8 columns, and fails whenever the position column is present but not
numeric; for every input with at least 9 columns and a numeric position
column, construction succeeds and assigns the seven fixed columns verbatim
with the position parsed as an integer. -/
theorem C5_construction (var_list : List String) (vcf : Vcf) :
    (var_list.length < 8 → isOkE (Variant.init var_list vcf) = false)
    ∧ (∀ p, var_list.get? 1 = some p → pyInt p = none →
        isOkE (Variant.init var_list vcf) = false)
    ∧ (9 ≤ var_list.length → ∀ n, pyInt (var_list.getD 1 "") = some n →
        (Variant.init var_list vcf).map
            (fun v => (v.chrom, v.pos, v.var_id, v.ref, v.alt, v.qual, v.filter))
          = .ok (var_list.getD 0 "", n, var_list.getD 2 "", var_list.getD 3 "",
              var_list.getD 4 "", var_list.getD 5 "", var_list.getD 6 "")) := by
  refine ⟨?_, ?_, ?_⟩
  · intro hlt
    cases hok : isOkE (Variant.init var_list vcf) with
    | false => rfl
    | true =>
      obtain ⟨v, hv⟩ := isOkE_iff.mp hok
      exact absurd (init_ok_length hv) (by omega)
  · intro p hp hnone
    obtain ⟨hlt2, -⟩ := List.get?_eq_some.mp hp
    rcases var_list with _ | ⟨a, _ | ⟨b, t⟩⟩
    · simp at hlt2
    · simp at hlt2
    · have hb : b = p := by
        have hb' := hp
        simp [List.get?] at hb'
        exact hb'
      subst hb
      simp [Variant.init, hnone, isOkE]
  · intro hlen n hn
    obtain ⟨l0, l1, l2, l3, l4, l5, l6, l7, l8, rest, rfl⟩ := exists_nine var_list hlen
    rw [show (l0 :: l1 :: l2 :: l3 :: l4 :: l5 :: l6 :: l7 :: l8 :: rest).getD 1 "" = l1
      from rfl] at hn
    rw [init_cons, hn]
    rfl

/-- **C5** (witness): the three amended clauses at concrete inputs — a
7-column line, a line with a non-numeric position, and the canonical
`colsW`. -/
theorem C5_construction_witness :
    isOkE (Variant.init ["chr1", "100", "rs1", "A", "G", "50", "PASS"] vcfW) = false
    ∧ isOkE (Variant.init
        ["chr1", "pos", "rs1", "A", "G", "50", "PASS", "AF=0.5", "GT", "0/1", "0/0"] vcfW)
        = false
    ∧ (Variant.init colsW vcfW).map
        (fun v => (v.chrom, v.pos, v.var_id, v.ref, v.alt, v.qual, v.filter))
      = .ok ("chr1", 100, "rs1", "A", "G", "50", "PASS") :=
  ⟨(C5_construction _ vcfW).1 (by decide),
   (C5_construction _ vcfW).2.1 "pos" (by decide) (by decide),
   (C5_construction colsW vcfW).2.2 (by decide) 100 (by decide)⟩

/-- **C9**: construction succeeds only with at least 9 columns, and on an
input with exactly 8 columns (fixed columns plus INFO, numeric position)
it fails with the out-of-range read of the FORMAT column — `indexError`,
not the explicit fewer-than-8-columns `malformedRecord` check, which it
passes. -/
theorem C9_eight_columns (var_list : List String) (vcf : Vcf) :
    (isOkE (Variant.init var_list vcf) = true → 9 ≤ var_list.length)
    ∧ (var_list.length = 8 → ∀ n, pyInt (var_list.getD 1 "") = some n →
        Variant.init var_list vcf = .error .indexError) := by
  constructor
  · intro hok
    obtain ⟨v, hv⟩ := isOkE_iff.mp hok
    exact init_ok_length hv
  · intro hlen n hn
    rcases var_list with _ | ⟨a0, _ | ⟨a1, _ | ⟨a2, _ | ⟨a3, _ | ⟨a4, _ | ⟨a5, _ | ⟨a6, _ | ⟨a7, t⟩⟩⟩⟩⟩⟩⟩⟩
    all_goals simp at hlen
    subst hlen
    rw [show ([a0, a1, a2, a3, a4, a5, a6, a7] : List String).getD 1 "" = a1 from rfl] at hn
    simp [Variant.init, hn]

/-- **C9** (witness): at the concrete 8-column input `cols8`. -/
theorem C9_eight_columns_witness :
    Variant.init cols8 vcfW = .error .indexError :=
  (C9_eight_columns cols8 vcfW).2 (by decide) 100 (by decide)

/-- **C6**: `set_info` on an id not declared in the header's INFO list fails
with the undeclared-field error (the `info` mapping of the failing record is
untouched — the error path performs no write); on a declared id it succeeds,
storing the value under that id and leaving every other key's binding
unchanged. -/
theorem C6_set_info (v : Variant) (field : String) (value : Value) :
    (field ∉ v.info_list.map (·.id) →
      v.set_info field value = .error .undeclaredInfoField)
    ∧ (field ∈ v.info_list.map (·.id) →
        v.set_info field value = .ok { v with info := pyDictInsert v.info field value }
        ∧ pyDictGet (pyDictInsert v.info field value) field = some value
        ∧ ∀ k, k ≠ field →
            pyDictGet (pyDictInsert v.info field value) k = pyDictGet v.info k) := by
  constructor
  · intro h
    have hc : (v.info_list.map (·.id)).contains field = false := by
      rw [Bool.eq_false_iff]
      intro hcont
      exact h (List.elem_iff.mp hcont)
    simp only [Variant.set_info]
    rw [hc]
    rfl
  · intro h
    have hc : (v.info_list.map (·.id)).contains field = true := List.elem_iff.mpr h
    refine ⟨?_, pyDictGet_insert_self _ _ _, ?_⟩
    · simp only [Variant.set_info]
      rw [hc]
      rfl
    intro k hk
    exact pyDictGet_insert_ne _ _ _ _ hk

/-- **C6** (witness): at `vW` — undeclared id `XY` fails, declared id `AF`
overwrites, and key `DB` is untouched. -/
theorem C6_set_info_witness :
    vW.set_info "XY" (.str "1") = .error .undeclaredInfoField
    ∧ vW.set_info "AF" (.str "1") = .ok { vW with info := pyDictInsert vW.info "AF" (.str "1") }
    ∧ pyDictGet (pyDictInsert vW.info "AF" (.str "1")) "AF" = some (.str "1")
    ∧ pyDictGet (pyDictInsert vW.info "AF" (.str "1")) "DB" = pyDictGet vW.info "DB" :=
  ⟨(C6_set_info vW "XY" (.str "1")).1 (by decide),
   ((C6_set_info vW "AF" (.str "1")).2 (by decide)).1,
   ((C6_set_info vW "AF" (.str "1")).2 (by decide)).2.1,
   ((C6_set_info vW "AF" (.str "1")).2 (by decide)).2.2 "DB" (by decide)⟩

/-- **C7**: after `update_active_format_list` the derived order is the
header's declared FORMAT order filtered to the current active set; the
active set itself is unchanged; and any active tag not declared in the
header is absent from the derived order. -/
theorem C7_active_order (v : Variant) :
    (v.update_active_format_list).active_format_list
        = (v.format_list.map (·.id)).filter (fun i => v.active_formats.contains i)
    ∧ (v.update_active_format_list).active_formats = v.active_formats
    ∧ ∀ t, t ∈ v.active_formats → t ∉ v.format_list.map (·.id) →
        t ∉ (v.update_active_format_list).active_format_list := by
  refine ⟨activeList_eq_filter v.format_list v.active_formats, rfl, ?_⟩
  intro t ht hnot hmem
  have hmem' : t ∈ activeList v.format_list v.active_formats := hmem
  rw [activeList_eq_filter] at hmem'
  exact hnot (List.mem_of_mem_filter hmem')

/-- Test fixture: a line whose FORMAT column carries the undeclared tag
`XX` next to the declared `GT`. -/
def colsX : List String :=
  ["chr1", "100", "rs1", "A", "G", "50", "PASS", "AF=0.5", "GT:XX", "0/1:z", "0/0:y"]

/-- Test fixture: the record built from `colsX`. -/
def vX : Variant := (Variant.init colsX vcfW).toOption.getD emptyVariant

/-- **C7** (witness): at `vX`, whose active set is `{GT, XX}` with `XX`
undeclared. -/
theorem C7_active_order_witness :
    (vX.update_active_format_list).active_format_list
        = (vX.format_list.map (·.id)).filter (fun i => vX.active_formats.contains i)
    ∧ (vX.update_active_format_list).active_formats = vX.active_formats
    ∧ "XX" ∉ (vX.update_active_format_list).active_format_list :=
  ⟨(C7_active_order vX).1, (C7_active_order vX).2.1,
    (C7_active_order vX).2.2 "XX" (by decide) (by decide)⟩

/-- **C8** is false in its equivalence clause: on `colsX` the raw FORMAT
column is `GT:XX` (`XX` undeclared), so before the raw-to-parsed transition
the serializer returns `GT:XX` verbatim while after the transition, with the
active format set unchanged (`{GT, XX}`), it returns `GT` — the two are not
equivalent in content. -/
theorem C8_counterexample :
    (Variant.init colsX vcfW).toOption.map
        (fun v => (v.active_formats, v.get_format_string))
      = some (["GT", "XX"], "GT:XX")
    ∧ ((Variant.init colsX vcfW).toOption.bind fun v => (v.genotype "S1").toOption).map
        (fun p => (p.1.active_formats, p.1.get_format_string))
      = some (["GT", "XX"], "GT")
    ∧ ("GT:XX" : String) ≠ "GT" :=
  ⟨by decide, by decide, by decide⟩

/-- **C8** (amended): while the raw FORMAT cache is present the serializer
returns it verbatim; once it is gone the serializer returns the header's
declared FORMAT order filtered to the active set, joined with `:`; and the
two results coincide provided the raw FORMAT column's tag list is exactly
the header order filtered to those tags (every tag declared, in header
order, no repetition) — an undeclared, repeated or out-of-order tag can make
them differ. -/
theorem C8_format_string (v : Variant) (s : String)
    (hraw : v.format_string = some s) :
    v.get_format_string = s
    ∧ (({ v with format_string := none } : Variant).get_format_string
        = pyJoin ":" (activeList v.format_list v.active_formats))
    ∧ (v.active_formats = pySplit ':' s →
        (v.format_list.map (·.id)).filter (fun i => (pySplit ':' s).contains i)
          = pySplit ':' s →
        ({ v with format_string := none } : Variant).get_format_string = s) := by
  refine ⟨by simp [Variant.get_format_string, hraw], rfl, ?_⟩
  intro hact hord
  show pyJoin ":" (activeList v.format_list v.active_formats) = s
  rw [activeList_eq_filter, hact, hord]
  exact pyJoin_pySplit ':' s

/-- **C8** (witness): at `vW`, whose raw FORMAT column `GT:DP` is declared,
in header order and repetition-free, so both paths return `GT:DP`. -/
theorem C8_format_string_witness :
    vW.get_format_string = "GT:DP"
    ∧ (({ vW with format_string := none } : Variant).get_format_string
        = pyJoin ":" (activeList vW.format_list vW.active_formats))
    ∧ ({ vW with format_string := none } : Variant).get_format_string = "GT:DP" :=
  ⟨(C8_format_string vW "GT:DP" (by decide)).1,
   (C8_format_string vW "GT:DP" (by decide)).2.1,
   (C8_format_string vW "GT:DP" (by decide)).2.2 (by decide) (by decide)⟩

/-- **C10**: an INFO part with two or more `=` stores, under the key before
the first `=`, only the substring between the first and second `=` (the
remainder is dropped, so the stored rendering `key=value` can no longer
equal such a part); a part with no `=` is stored with the Python boolean
`True`; and a constructed record's `info` is exactly the INFO column parsed
this way. -/
theorem C10_info_parts (k v1 r p : String)
    (hk : '=' ∉ k.data) (hv : '=' ∉ v1.data) (hp : '=' ∉ p.data) :
    (∀ d, infoStep d (k ++ "=" ++ v1 ++ "=" ++ r) = pyDictInsert d k (.str v1))
    ∧ k ++ "=" ++ v1 ≠ k ++ "=" ++ v1 ++ "=" ++ r
    ∧ (∀ d, infoStep d p = pyDictInsert d p (.bool true))
    ∧ (∀ var_list vcf w, Variant.init var_list vcf = .ok w →
        w.info = parseInfo (var_list.getD 7 "")) := by
  have hsplit : pySplit '=' (k ++ "=" ++ v1 ++ "=" ++ r) = k :: v1 :: pySplit '=' r := by
    show (splitChars '=' (k ++ "=" ++ v1 ++ "=" ++ r).data).map String.mk = _
    have hd : (k ++ "=" ++ v1 ++ "=" ++ r).data
        = k.data ++ '=' :: (v1.data ++ '=' :: r.data) := by
      show ((((k.data ++ ['=']) ++ v1.data) ++ ['=']) ++ r.data) = _
      simp
    rw [hd, splitChars_append '=' k.data _ hk, splitChars_append '=' v1.data _ hv]
    rfl
  refine ⟨?_, ?_, ?_, ?_⟩
  · intro d
    simp only [infoStep, hsplit]
  · intro heq
    have hd := congrArg (fun s : String => s.data.length) heq
    simp only [] at hd
    rw [show (k ++ "=" ++ v1).data = (k.data ++ ['=']) ++ v1.data from rfl,
      show (k ++ "=" ++ v1 ++ "=" ++ r).data
        = (((k.data ++ ['=']) ++ v1.data) ++ ['=']) ++ r.data from rfl] at hd
    simp [List.length_append] at hd
  · intro d
    have hone : pySplit '=' p = [p] := by
      show (splitChars '=' p.data).map String.mk = [p]
      rw [splitChars_no_sep '=' p.data hp]
      rfl
    simp only [infoStep, hone]
  · intro var_list vcf w hw
    obtain ⟨l0, l1, l2, l3, l4, l5, l6, l7, l8, rest, n, rfl, hp2, rfl⟩ := init_ok_inv hw
    rfl

/-- **C10** (witness): the part `K=a=b` stores `("K", "a")`, `K=a` differs
from `K=a=b`, the flag part `DB` stores `True`, and `vW.info` is the parse
of `colsW`'s INFO column. -/
theorem C10_info_parts_witness :
    infoStep [] ("K" ++ "=" ++ "a" ++ "=" ++ "b") = pyDictInsert [] "K" (.str "a")
    ∧ "K" ++ "=" ++ "a" ≠ "K" ++ "=" ++ "a" ++ "=" ++ "b"
    ∧ infoStep [] "DB" = pyDictInsert [] "DB" (.bool true)
    ∧ vW.info = parseInfo (colsW.getD 7 "") :=
  ⟨(C10_info_parts "K" "a" "b" "DB" (by decide) (by decide) (by decide)).1 [],
   (C10_info_parts "K" "a" "b" "DB" (by decide) (by decide) (by decide)).2.1,
   (C10_info_parts "K" "a" "b" "DB" (by decide) (by decide) (by decide)).2.2.1 [],
   (C10_info_parts "K" "a" "b" "DB" (by decide) (by decide) (by decide)).2.2.2
     colsW vcfW vW (by decide)⟩

/-- **C4**: the serialized INFO string is exactly the header-declared INFO
fields present in the `info` mapping, in header-declared order, joined with
`;`, a `Flag`-typed field appearing as its bare id exactly when its stored
value is truthy and a non-Flag field as `id=value`; and the output is
independent of the insertion order of `info` (it depends on `info` only
through lookup). -/
theorem C4_info_string (v : Variant) :
    v.get_info_string
      = pyJoin ";"
          ((v.info_list.filter fun f =>
              match pyDictGet v.info f.id with
              | none => false
              | some val => if f.type = "Flag" then val.truthy else true).map
            (fun f => if f.type = "Flag" then f.id
              else f.id ++ "=" ++ ((pyDictGet v.info f.id).getD (.bool true)).toStr))
    ∧ ∀ info' : List (String × Value),
        (∀ k, pyDictGet info' k = pyDictGet v.info k) →
        ({ v with info := info' } : Variant).get_info_string = v.get_info_string := by
  constructor
  · rw [Variant.get_info_string, infoEntries_eq]
  · intro info' h
    simp only [Variant.get_info_string]
    rw [infoEntries_congr v.info_list v.info info' h]

/-- **C4** (witness): at `vW` (info `AF=0.5`, `DB` flag, header order `AF`
then `DB`), with the insertion-order-reversed dictionary. -/
theorem C4_info_string_witness :
    vW.get_info_string
      = pyJoin ";"
          ((vW.info_list.filter fun f =>
              match pyDictGet vW.info f.id with
              | none => false
              | some val => if f.type = "Flag" then val.truthy else true).map
            (fun f => if f.type = "Flag" then f.id
              else f.id ++ "=" ++ ((pyDictGet vW.info f.id).getD (.bool true)).toStr))
    ∧ ({ vW with info := [("DB", Value.bool true), ("AF", Value.str "0.5")] } : Variant).get_info_string
        = vW.get_info_string :=
  ⟨(C4_info_string vW).1,
    (C4_info_string vW).2 [("DB", Value.bool true), ("AF", Value.str "0.5")]
      (by
        intro k
        by_cases h1 : k = "AF"
        · subst h1; decide
        · by_cases h2 : k = "DB"
          · subst h2; decide
          · have h1' : ¬ ("AF" = k) := fun hc => h1 hc.symm
            have h2' : ¬ ("DB" = k) := fun hc => h2 hc.symm
            simp [pyDictGet, vW, Variant.init, colsW, vcfW, h1', h2'])⟩
